import Mathlib

/-!
Verification of `src/beast/beast/asio/type_check.h` (Beast compile-time
capability checks) against its specification.

The header is pure template metaprogramming: each trait probes, via SFINAE,
whether certain expressions formed over a hypothetical value of a candidate
type `T` are well-formed, and what their result types are.  The shallow
embedding models:

* the C++ types that the probes can observe (`Ty`), together with the standard
  implicit-conversion facts (`is_convertible`) and the iterator-category
  facts (`iterator_category`, `forward_tag_is_base_of`) the header relies on;
* a candidate type as the record (`Shape`) of exactly the structural facts the
  probes in the header inspect: copy-constructibility, destructibility, the
  nested `value_type` / `const_iterator` declarations, and the result type of
  each probed member expression, where `none` models "the expression is
  ill-formed" (the SFINAE fallback overload `check(...)` is selected) and
  `some r` models "well-formed with result type `r`";
* each trait of the header as a Bool-valued function on `Shape`, translated
  check-by-check from the source.
-/

namespace Beast

/-- The standard iterator-category tags observed through
`std::iterator_traits<I>::iterator_category`. -/
inductive IteratorCategory where
  | input
  | output
  | forward
  | bidirectional
  | random_access
deriving DecidableEq

/-- `std::is_base_of<std::forward_iterator_tag, cat>` for a category tag `cat`,
per the standard tag hierarchy `input <- forward <- bidirectional <-
random_access` (with `output` unrelated).  `is_base_of` of a tag with itself
is true. -/
def forward_tag_is_base_of : IteratorCategory → Bool
  | .forward => true
  | .bidirectional => true
  | .random_access => true
  | _ => false

/-- The C++ types relevant to the probes in `type_check.h`:
the two boost.asio region descriptors, `std::size_t` and a signed byte-count
type, `boost::asio::io_service&` and a reference to a class derived from
`io_service`, `std::string`, `void`, pointers, iterator types carrying an
`iterator_traits` category, and arbitrary other types tagged by an id. -/
inductive Ty where
  | const_buffer
  | mutable_buffer
  | size_t
  | signed_size
  | io_service_ref
  | io_service_derived_ref
  | string
  | voidTy
  | ptr (t : Ty)
  | iter (cat : IteratorCategory) (id : Nat)
  | other (id : Nat)
deriving DecidableEq

/-- `std::is_convertible<a, b>::value` restricted to the types of `Ty`:
identity conversions, `mutable_buffer` to `const_buffer` (boost.asio provides
this constructor), derived-to-base reference binding for `io_service`, and the
arithmetic conversions between the signed and unsigned byte-count types. -/
def is_convertible (a b : Ty) : Bool :=
  a == b ||
  (a == Ty.mutable_buffer && b == Ty.const_buffer) ||
  (a == Ty.io_service_derived_ref && b == Ty.io_service_ref) ||
  (a == Ty.signed_size && b == Ty.size_t) ||
  (a == Ty.size_t && b == Ty.signed_size)

/-- `std::iterator_traits<I>::iterator_category`: defined (with the category
shown) for pointers and for iterator types; for any other type the member
typedef is absent and the probe that names it is ill-formed (`none`). -/
def iterator_category : Ty → Option IteratorCategory
  | Ty.ptr _ => some IteratorCategory.random_access
  | Ty.iter c _ => some c
  | _ => none

/-- The structural facts about a candidate C++ type that the probes in
`type_check.h` observe.  An `Option` field is the outcome of forming the
corresponding expression over `std::declval`: `none` when it is ill-formed,
`some r` when it is well-formed with result type `r`. -/
structure Shape where
  /-- `std::is_copy_constructible<T>::value` -/
  copy_constructible : Bool := false
  /-- `std::is_destructible<T>::value` -/
  destructible : Bool := false
  /-- the nested declaration `typename T::value_type` -/
  value_type : Option Ty := none
  /-- the nested declaration `typename T::const_iterator` -/
  const_iterator : Option Ty := none
  /-- `decltype(std::declval<T>().begin())` -/
  begin_expr : Option Ty := none
  /-- `decltype(std::declval<T>().end())` -/
  end_expr : Option Ty := none
  /-- `decltype(std::declval<T>().get_io_service())` -/
  get_io_service : Option Ty := none
  /-- `decltype(std::declval<T>().async_read_some(MutableBufferSequence, ReadHandler))` -/
  async_read_some : Option Ty := none
  /-- `decltype(std::declval<T>().async_write_some(ConstBufferSequence, WriteHandler))` -/
  async_write_some : Option Ty := none
  /-- `decltype(std::declval<T>().read_some(MutableBufferSequence))` -/
  read_some_mb : Option Ty := none
  /-- `decltype(std::declval<T>().read_some(MutableBufferSequence, error_code&))` -/
  read_some_mb_ec : Option Ty := none
  /-- `decltype(std::declval<T>().write_some(ConstBufferSequence))` -/
  write_some_cb : Option Ty := none
  /-- `decltype(std::declval<T>().write_some(ConstBufferSequence, error_code&))` -/
  write_some_cb_ec : Option Ty := none
deriving DecidableEq

/-- The model type `beast::concept::BufferSequence<BufferType>` of the header:
`value_type = BufferType`, `const_iterator = BufferType const*`, a declared
destructor, a defaulted copy constructor, and `begin()` / `end()` returning
`const_iterator`. -/
def concept.BufferSequence (BufferType : Ty) : Shape :=
  { copy_constructible := true
    destructible := true
    value_type := some BufferType
    const_iterator := some (Ty.ptr BufferType)
    begin_expr := some (Ty.ptr BufferType)
    end_expr := some (Ty.ptr BufferType) }

/-- `beast::concept::ConstBufferSequence`. -/
def concept.ConstBufferSequence : Shape :=
  concept.BufferSequence Ty.const_buffer

/-- `beast::concept::MutableBufferSequence`. -/
def concept.MutableBufferSequence : Shape :=
  concept.BufferSequence Ty.mutable_buffer

/-- The shape of the primitive scalar type `int`: copy-constructible and
destructible, with no members at all, so every probed member expression is
ill-formed. -/
def intShape : Shape :=
  { copy_constructible := true, destructible := true }

/-- `is_BufferSequence::check1`: the default template argument
`R = std::is_convertible<typename U::value_type, BufferType>` is ill-formed
(selecting the `std::false_type` fallback) when `U` has no `value_type`;
otherwise its `::value` is the convertibility result. -/
def bs_type1 (T : Shape) (BufferType : Ty) : Bool :=
  match T.value_type with
  | some vt => is_convertible vt BufferType
  | none => false

/-- `is_BufferSequence::check2`:
`R = std::is_base_of<std::forward_iterator_tag,
std::iterator_traits<typename U::const_iterator>::iterator_category>`;
ill-formed (hence false) when `const_iterator` is absent or has no
`iterator_traits` category. -/
def bs_type2 (T : Shape) : Bool :=
  match T.const_iterator with
  | some it =>
    match iterator_category it with
    | some cat => forward_tag_is_base_of cat
    | none => false
  | none => false

/-- `is_BufferSequence::check3`:
`R = std::is_convertible<decltype(std::declval<U>().begin()),
typename U::const_iterator>::type`; ill-formed (hence false) when either
`begin()` or `const_iterator` is absent. -/
def bs_type3 (T : Shape) : Bool :=
  match T.begin_expr, T.const_iterator with
  | some b, some it => is_convertible b it
  | _, _ => false

/-- `is_BufferSequence::check4`: as `check3` with `end()`. -/
def bs_type4 (T : Shape) : Bool :=
  match T.end_expr, T.const_iterator with
  | some e, some it => is_convertible e it
  | _, _ => false

/-- `beast::is_BufferSequence<T, BufferType>::value`:
`std::is_copy_constructible<T>::value && std::is_destructible<T>::value &&
type1::value && type2::value && type3::value && type4::value`. -/
def is_BufferSequence (T : Shape) (BufferType : Ty) : Bool :=
  T.copy_constructible && T.destructible &&
  bs_type1 T BufferType && bs_type2 T &&
  bs_type3 T && bs_type4 T

/-- `beast::is_ConstBufferSequence<T>`. -/
def is_ConstBufferSequence (T : Shape) : Bool :=
  is_BufferSequence T Ty.const_buffer

/-- `beast::is_MutableBufferSequence<C>`. -/
def is_MutableBufferSequence (C : Shape) : Bool :=
  is_BufferSequence C Ty.mutable_buffer

/-- `beast::has_get_io_service<T>::value`: the probe
`R = std::is_same<decltype(std::declval<U>().get_io_service()),
boost::asio::io_service&>` — false when the call is ill-formed, otherwise an
exact type comparison. -/
def has_get_io_service (T : Shape) : Bool :=
  match T.get_io_service with
  | some r => r == Ty.io_service_ref
  | none => false

/-- `beast::is_AsyncReadStream<T>::value`: `has_get_io_service<T>::value &&
type::value`, where `type` is `std::true_type` exactly when
`async_read_some(MutableBufferSequence, ReadHandler)` is well-formed — the
probe is `decltype(expr, std::true_type{})`, so the result type of the call
is unconstrained. -/
def is_AsyncReadStream (T : Shape) : Bool :=
  has_get_io_service T && T.async_read_some.isSome

/-- `beast::is_AsyncWriteStream<T>::value`: symmetric to `is_AsyncReadStream`
with `async_write_some(ConstBufferSequence, WriteHandler)`. -/
def is_AsyncWriteStream (T : Shape) : Bool :=
  has_get_io_service T && T.async_write_some.isSome

/-- The shape probed by `is_SyncReadStream` / `is_SyncWriteStream` checks:
`R = std::is_same<decltype(expr), std::size_t>` — false when the expression
is ill-formed, otherwise an exact comparison with `std::size_t`. -/
def result_is_size_t : Option Ty → Bool
  | some r => r == Ty.size_t
  | none => false

/-- `beast::is_SyncReadStream<T>::value`: `type1::value && type2::value`,
where `type1` probes `read_some(MutableBufferSequence)` and `type2` probes
`read_some(MutableBufferSequence, error_code&)`, each required to return
exactly `std::size_t`. -/
def is_SyncReadStream (T : Shape) : Bool :=
  result_is_size_t T.read_some_mb && result_is_size_t T.read_some_mb_ec

/-- `beast::is_SyncWriteStream<T>::value`: as `is_SyncReadStream` over
`write_some` with a `ConstBufferSequence`. -/
def is_SyncWriteStream (T : Shape) : Bool :=
  result_is_size_t T.write_some_cb && result_is_size_t T.write_some_cb_ec

/-- `beast::is_Stream<T>::value`: the conjunction of the four stream
checks. -/
def is_Stream (T : Shape) : Bool :=
  is_AsyncReadStream T &&
  is_AsyncWriteStream T &&
  is_SyncReadStream T &&
  is_SyncWriteStream T

/-- The structural facts about a candidate type that the `is_Streambuf`
partial specialization observes: the outcome of forming `prepare(1)` and
`data()` (whose result types are themselves candidate types, fed to the
buffer-sequence checks), of `commit(1)` and `consume(1)` (result types
unconstrained), and of `size()` (result type compared with
`std::size_t`). -/
structure StreambufShape where
  /-- the shape of `decltype(std::declval<T>().prepare(1))` -/
  prepare : Option Shape := none
  /-- the shape of `decltype(std::declval<T>().data())` -/
  data : Option Shape := none
  /-- `decltype(std::declval<T>().commit(1))` -/
  commit : Option Ty := none
  /-- `decltype(std::declval<T>().consume(1))` -/
  consume : Option Ty := none
  /-- `decltype(std::declval<T>().size())` -/
  size : Option Ty := none
deriving DecidableEq

/-- The `int` instantiation of `is_Streambuf`: none of the five member
expressions is well-formed. -/
def intStreambufShape : StreambufShape := {}

/-- `beast::is_Streambuf<T>`: the primary template is `std::false_type`; the
partial specialization matches when the `std::void_t<...>` argument list is
well-formed, in which case the trait is `std::true_type`.  Each entry of the
`void_t` list is a *type*: `std::integral_constant<bool, b>` and
`std::is_same<A, B>` are well-formed types whatever boolean they carry, so
the buffer-sequence checks on the `prepare(1)` / `data()` results and the
exact-`std::size_t` comparison on `size()` are formed but their truth values
never influence the result — only well-formedness of the five member
expressions does. -/
def is_Streambuf (T : StreambufShape) : Bool :=
  match T.prepare, T.data, T.commit, T.consume, T.size with
  | some p, some d, some _, some _, some s =>
    let _mbs : Bool := is_MutableBufferSequence p
    let _cbs : Bool := is_ConstBufferSequence d
    let _sz : Bool := s == Ty.size_t
    true
  | _, _, _, _, _ => false

/-- The Growable Buffer Check as the spec states it (§4.7): true iff the
`prepare(n)` result satisfies the Mutable Buffer Sequence Check, the `data()`
result satisfies the Const Buffer Sequence Check, `commit(n)` and
`consume(n)` are well-formed, and the `size()` result type is exactly the
unsigned byte-count type. -/
def spec_isGrowableBuffer (T : StreambufShape) : Bool :=
  match T.prepare, T.data, T.commit, T.consume, T.size with
  | some p, some d, some _, some _, some s =>
    is_MutableBufferSequence p && is_ConstBufferSequence d && (s == Ty.size_t)
  | _, _, _, _, _ => false

/-- A qualifying growable buffer: `prepare(1)` yields a mutable buffer
sequence, `data()` a const buffer sequence, `commit(1)` / `consume(1)` return
`void`, and `size()` returns exactly `std::size_t`. -/
def goodStreambuf : StreambufShape :=
  { prepare := some concept.MutableBufferSequence
    data := some concept.ConstBufferSequence
    commit := some Ty.voidTy
    consume := some Ty.voidTy
    size := some Ty.size_t }

/-- The same candidate except that `size()` returns a signed byte-count
type. -/
def signedSizeStreambuf : StreambufShape :=
  { goodStreambuf with size := some Ty.signed_size }

/-- A type whose `read_some` overloads are present but return `std::string`
instead of `std::size_t`. -/
def stringReadStream : Shape :=
  { copy_constructible := true
    destructible := true
    read_some_mb := some Ty.string
    read_some_mb_ec := some Ty.string }

/-- A type offering only the error-free `read_some` overload, returning
`std::size_t`. -/
def errorFreeOnlyReadStream : Shape :=
  { copy_constructible := true
    destructible := true
    read_some_mb := some Ty.size_t }

/-- A type whose `get_io_service()` returns a reference to a class derived
from `boost::asio::io_service` — convertible to `io_service&` but not the
same type. -/
def derivedContextShape : Shape :=
  { copy_constructible := true
    destructible := true
    get_io_service := some Ty.io_service_derived_ref }

/-- The facts about a completion-handler candidate's underlying (decayed)
class type that `is_Handler` consumes: copy-constructibility and the set of
call signatures (tagged by id) the type is invocable with. -/
structure CallableShape where
  copy_constructible : Bool := false
  signatures : List Nat := []
deriving DecidableEq

/-- A completion-handler candidate type as passed to `is_Handler`: the
underlying class type possibly wrapped in reference/cv qualifiers, which
`std::decay_t` strips. -/
inductive HandlerTy where
  | plain (s : CallableShape)
  | lref (s : CallableShape)
  | clref (s : CallableShape)
  | rref (s : CallableShape)
deriving DecidableEq

/-- `std::decay_t<T>`: strip the reference/cv qualifiers, leaving the
underlying class type. -/
def decay_t : HandlerTy → CallableShape
  | .plain s => s
  | .lref s => s
  | .clref s => s
  | .rref s => s

/-- Modelled from the spec: `beast/is_call_possible.h` is not part of the
excerpt.  Per §4.1/§6 it is the imported attempt-and-absorb primitive
reporting whether the candidate value is invocable with the declared call
signature, discarding any return value. -/
def is_call_possible (T : HandlerTy) (Signature : Nat) : Bool :=
  (decay_t T).signatures.contains Signature

/-- `beast::is_Handler<T, Signature>`:
`std::is_copy_constructible<std::decay_t<T>>::value &&
is_call_possible<T, Signature>::value`. -/
def is_Handler (T : HandlerTy) (Signature : Nat) : Bool :=
  (decay_t T).copy_constructible && is_call_possible T Signature

/-- A move-only callable accepting the completion signature. -/
def moveOnlyHandler : HandlerTy :=
  HandlerTy.plain { copy_constructible := false, signatures := [0] }

end Beast

namespace Beast

theorem bs_type1_eq_true_iff (T : Shape) (B : Ty) :
    bs_type1 T B = true ↔
      ∃ vt, T.value_type = some vt ∧ is_convertible vt B = true := by
  cases h : T.value_type <;> simp [bs_type1, h]

theorem bs_type2_eq_true_iff (T : Shape) :
    bs_type2 T = true ↔
      ∃ it cat, T.const_iterator = some it ∧ iterator_category it = some cat ∧
        forward_tag_is_base_of cat = true := by
  cases h : T.const_iterator with
  | none => simp [bs_type2, h]
  | some it => cases h2 : iterator_category it <;> simp [bs_type2, h, h2]

theorem bs_type3_eq_true_iff (T : Shape) :
    bs_type3 T = true ↔
      ∃ b it, T.begin_expr = some b ∧ T.const_iterator = some it ∧
        is_convertible b it = true := by
  cases h1 : T.begin_expr <;> cases h2 : T.const_iterator <;>
    simp [bs_type3, h1, h2]

theorem bs_type4_eq_true_iff (T : Shape) :
    bs_type4 T = true ↔
      ∃ e it, T.end_expr = some e ∧ T.const_iterator = some it ∧
        is_convertible e it = true := by
  cases h1 : T.end_expr <;> cases h2 : T.const_iterator <;>
    simp [bs_type4, h1, h2]

theorem result_is_size_t_eq_true_iff (o : Option Ty) :
    result_is_size_t o = true ↔ o = some Ty.size_t := by
  cases o <;> simp [result_is_size_t]

/-- C1: `is_BufferSequence<T, BufferType>` (exposed as
`is_ConstBufferSequence` / `is_MutableBufferSequence` at the two region
descriptor kinds) is true iff all five sub-probes succeed: T is
copy-constructible and destructible; T has a nested `value_type` convertible
to the expected region-descriptor kind; T has a nested `const_iterator` whose
`iterator_traits` category has `forward_iterator_tag` as a base (so a
category that is not forward-or-better fails); T's `begin()` result is
convertible to that iterator type; and T's `end()` result is convertible to
that iterator type.  The iff gives no partial credit: if any single sub-probe
fails the whole check is false. -/
theorem is_BufferSequence_iff_probes (T : Shape) (BufferType : Ty) :
    is_BufferSequence T BufferType = true ↔
      (T.copy_constructible = true ∧ T.destructible = true) ∧
      (∃ vt, T.value_type = some vt ∧ is_convertible vt BufferType = true) ∧
      (∃ it cat, T.const_iterator = some it ∧
        iterator_category it = some cat ∧
        forward_tag_is_base_of cat = true) ∧
      (∃ b it, T.begin_expr = some b ∧ T.const_iterator = some it ∧
        is_convertible b it = true) ∧
      (∃ e it, T.end_expr = some e ∧ T.const_iterator = some it ∧
        is_convertible e it = true) := by
  rw [show is_BufferSequence T BufferType =
      (T.copy_constructible && T.destructible && bs_type1 T BufferType &&
        bs_type2 T && bs_type3 T && bs_type4 T) from rfl]
  simp only [Bool.and_eq_true, bs_type1_eq_true_iff, bs_type2_eq_true_iff,
    bs_type3_eq_true_iff, bs_type4_eq_true_iff]
  tauto

/-- C2: `is_Stream<T>` is true iff all four of `is_AsyncReadStream<T>`,
`is_AsyncWriteStream<T>`, `is_SyncReadStream<T>`, `is_SyncWriteStream<T>` are
true, and it is false iff at least one of the four is false — so flipping any
one of the four to false flips the composite to false. -/
theorem is_Stream_conjunction (T : Shape) :
    (is_Stream T = true ↔
      is_AsyncReadStream T = true ∧ is_AsyncWriteStream T = true ∧
      is_SyncReadStream T = true ∧ is_SyncWriteStream T = true) ∧
    (is_Stream T = false ↔
      is_AsyncReadStream T = false ∨ is_AsyncWriteStream T = false ∨
      is_SyncReadStream T = false ∨ is_SyncWriteStream T = false) := by
  cases ha : is_AsyncReadStream T <;>
    cases hb : is_AsyncWriteStream T <;>
      cases hc : is_SyncReadStream T <;>
        cases hd : is_SyncWriteStream T <;>
          simp [is_Stream, ha, hb, hc, hd]

end Beast

namespace Beast

/-- C3: the spec requires `isGrowableBuffer` to be false when `size()` returns
a signed type (and to demand the buffer-sequence properties of the
`prepare(1)` / `data()` results), but the code's `is_Streambuf` places those
conditions inside `std::void_t` as trait *types*, whose truth values cannot
affect well-formedness: at the candidate `signedSizeStreambuf` — a growable
buffer qualifying in every respect except that `size()` returns a signed
byte count — the spec-side check is false while the code evaluates to
true. -/
theorem is_Streambuf_signed_size_eval :
    spec_isGrowableBuffer goodStreambuf = true ∧
    is_Streambuf goodStreambuf = true ∧
    spec_isGrowableBuffer signedSizeStreambuf = false ∧
    is_Streambuf signedSizeStreambuf = true := by decide

/-- C4: `is_Streambuf<T>` is true exactly when the five member expressions
`prepare(1)`, `data()`, `commit(1)`, `consume(1)` and `size()` are all
well-formed; the boolean outcomes of the buffer-sequence checks on the
`prepare`/`data` result types and of the exact-`std::size_t` comparison on
`size()`'s result type are formed inside the detection context but never
required, so they cannot make the check false. -/
theorem is_Streambuf_eq_wellformedness (T : StreambufShape) :
    is_Streambuf T =
      (T.prepare.isSome && T.data.isSome && T.commit.isSome &&
        T.consume.isSome && T.size.isSome) := by
  rcases T with ⟨p, d, c, cs, s⟩
  cases p <;> cases d <;> cases c <;> cases cs <;> cases s <;> rfl

/-- C5: `is_SyncReadStream<T>` is true iff both `read_some` overload shapes
are present and return exactly `std::size_t` — the overload taking only a
mutable buffer sequence and the overload additionally taking an `error_code&`
out-parameter; `is_SyncWriteStream<T>` is the symmetric property over
`write_some` with a const buffer sequence.  A type offering only the
error-free overload (`errorFreeOnlyReadStream`) yields false. -/
theorem is_SyncReadStream_iff (T : Shape) :
    (is_SyncReadStream T = true ↔
      T.read_some_mb = some Ty.size_t ∧
      T.read_some_mb_ec = some Ty.size_t) ∧
    (is_SyncWriteStream T = true ↔
      T.write_some_cb = some Ty.size_t ∧
      T.write_some_cb_ec = some Ty.size_t) ∧
    is_SyncReadStream errorFreeOnlyReadStream = false := by
  refine ⟨?_, ?_, by decide⟩ <;>
    simp [is_SyncReadStream, is_SyncWriteStream, Bool.and_eq_true,
      result_is_size_t_eq_true_iff]

/-- C6: `is_AsyncReadStream<T>` is true iff `has_get_io_service<T>` holds and
the call `async_read_some(mutable buffer sequence, completion handler)` is
well-formed with any result type whatsoever (the existential puts no
constraint on `r`); `is_AsyncWriteStream<T>` is symmetric over
`async_write_some` with a const buffer sequence. -/
theorem is_AsyncReadStream_iff (T : Shape) :
    (is_AsyncReadStream T = true ↔
      has_get_io_service T = true ∧ ∃ r, T.async_read_some = some r) ∧
    (is_AsyncWriteStream T = true ↔
      has_get_io_service T = true ∧ ∃ r, T.async_write_some = some r) := by
  constructor <;>
    simp [is_AsyncReadStream, is_AsyncWriteStream, Bool.and_eq_true,
      Option.isSome_iff_exists]

/-- C7: `has_get_io_service<T>` is true iff `T.get_io_service()` is
well-formed with result type exactly `boost::asio::io_service&`; a result
type merely convertible to that reference does not qualify, as witnessed by
`derivedContextShape`, whose `get_io_service()` returns a reference to a
derived class — convertible to `io_service&` yet rejected. -/
theorem has_get_io_service_iff (T : Shape) :
    (has_get_io_service T = true ↔
      T.get_io_service = some Ty.io_service_ref) ∧
    (is_convertible Ty.io_service_derived_ref Ty.io_service_ref = true ∧
      has_get_io_service derivedContextShape = false) := by
  refine ⟨?_, by decide, by decide⟩
  cases h : T.get_io_service <;> simp [has_get_io_service, h]

/-- C8: `is_Handler<T, Signature>` is true iff the decayed
(reference/qualifier-stripped) form of `T` is copy-constructible and `T` is
invocable with the declared signature (any return value discarded); in
particular the move-only callable `moveOnlyHandler`, though invocable with
the matching signature, yields false. -/
theorem is_Handler_iff (T : HandlerTy) (Signature : Nat) :
    (is_Handler T Signature = true ↔
      (decay_t T).copy_constructible = true ∧
      is_call_possible T Signature = true) ∧
    (is_call_possible moveOnlyHandler 0 = true ∧
      is_Handler moveOnlyHandler 0 = false) := by
  refine ⟨?_, by decide, by decide⟩
  simp [is_Handler, Bool.and_eq_true]

/-- C9: every exposed check applied to the primitive scalar type `int`
evaluates — totally, by computation — to false: the buffer-sequence checks,
the execution-context accessor check, the four stream checks, the composite
stream check and the growable-buffer check. -/
theorem primitive_scalar_checks_false :
    is_ConstBufferSequence intShape = false ∧
    is_MutableBufferSequence intShape = false ∧
    has_get_io_service intShape = false ∧
    is_AsyncReadStream intShape = false ∧
    is_AsyncWriteStream intShape = false ∧
    is_SyncReadStream intShape = false ∧
    is_SyncWriteStream intShape = false ∧
    is_Stream intShape = false ∧
    is_Streambuf intStreambufShape = false := by decide

/-- C10: when a type exposes a `read_some` with the required name but an
incompatible result type — any result type other than `std::size_t` — the
check absorbs the mismatch and `is_SyncReadStream` evaluates to false rather
than failing. -/
theorem incompatible_read_some_yields_false (T : Shape) (r : Ty)
    (h1 : T.read_some_mb = some r) (h2 : r ≠ Ty.size_t) :
    is_SyncReadStream T = false := by
  have : result_is_size_t T.read_some_mb = false := by
    rw [h1]
    simpa [result_is_size_t] using h2
  simp [is_SyncReadStream, this]

/-- Witness for C10 at the concrete candidate `stringReadStream`, whose
`read_some` overloads return `std::string`. -/
theorem incompatible_read_some_yields_false_witness :
    stringReadStream.read_some_mb = some Ty.string ∧
    Ty.string ≠ Ty.size_t ∧
    is_SyncReadStream stringReadStream = false :=
  ⟨rfl, by decide,
    incompatible_read_some_yields_false stringReadStream Ty.string rfl
      (by decide)⟩

end Beast
